import Mathlib

/-
  Verification of the lePong runtime core (lepouki/lePong).

  Shallow embedding of the C++ sources:
    - src/lepong.cpp            (lifecycle manager, frame loop, match state)
    - src/Game/Paddle.cpp       (paddle update and terrain collision)
    - src/lepong/Graphics/Graphics.cpp (shader / program creation)

  Floats are modelled as exact rationals (and reals where square roots
  appear).  Side-effecting call sequences are modelled as explicit event
  traces so that statements about which procedures run, and in which
  order, can be made precisely.
-/

namespace Lepong

/-! ## Lifecycle manager (src/lepong.cpp, TryInitItems / CleanupItemsStartingAt)

An item's behaviour is abstracted by the boolean its init function returns
(`inits i`); the trace records every init and cleanup invocation. -/

/-- One observable call made by the lifecycle manager: an init call on item
`i` returning `ok`, or a cleanup call on item `i`. -/
inductive LifeEvent where
  | initCall (i : Nat) (ok : Bool)
  | cleanupCall (i : Nat)
deriving DecidableEq, Repr

/-- Embedding of `CleanupItemsStartingAt` (src/lepong.cpp:177-184): cleans up
items `index - 1` down to `0`, in that order. -/
def CleanupItemsStartingAt (index : Nat) : List LifeEvent :=
  (List.range index).reverse.map LifeEvent.cleanupCall

/-- The loop of `TryInitItems` (src/lepong.cpp:159-175) starting at index `i`:
`for (unsigned i = 0; succeeded && i < NumItems; ++i)` with the body
`succeeded = lifetimes[i].Init(); if (!succeeded) CleanupItemsStartingAt(lifetimes, i)`.
Returns the final `succeeded` value and the trace of init/cleanup calls. -/
def TryInitItemsFrom (inits : Nat → Bool) (numItems i : Nat) : Bool × List LifeEvent :=
  if _h : i < numItems then
    if inits i then
      let r := TryInitItemsFrom inits numItems (i + 1)
      (r.1, LifeEvent.initCall i true :: r.2)
    else
      (false, LifeEvent.initCall i false :: CleanupItemsStartingAt i)
  else
    (true, [])
termination_by numItems - i
decreasing_by omega

/-- Embedding of `TryInitItems` (src/lepong.cpp:159-175). -/
def TryInitItems (inits : Nat → Bool) (numItems : Nat) : Bool × List LifeEvent :=
  TryInitItemsFrom inits numItems 0

/-- The indices of the cleanup calls of a lifecycle trace, in trace order. -/
def cleanupIndices (t : List LifeEvent) : List Nat :=
  t.filterMap fun e =>
    match e with
    | LifeEvent.cleanupCall i => some i
    | _ => none

/-- The indices of the init calls of a lifecycle trace, in trace order. -/
def initIndices (t : List LifeEvent) : List Nat :=
  t.filterMap fun e =>
    match e with
    | LifeEvent.initCall i _ => some i
    | _ => none

lemma cleanupIndices_append (a b : List LifeEvent) :
    cleanupIndices (a ++ b) = cleanupIndices a ++ cleanupIndices b := by
  simp [cleanupIndices]

lemma cleanupIndices_map_init (l : List Nat) (b : Bool) :
    cleanupIndices (l.map (fun j => LifeEvent.initCall j b)) = [] := by
  induction l with
  | nil => rfl
  | cons x xs ih => simp [cleanupIndices] at ih ⊢

lemma cleanupIndices_map_cleanup (l : List Nat) :
    cleanupIndices (l.map LifeEvent.cleanupCall) = l := by
  induction l with
  | nil => rfl
  | cons x xs ih => simpa [cleanupIndices] using ih

lemma initIndices_map_init (l : List Nat) (b : Bool) :
    initIndices (l.map (fun j => LifeEvent.initCall j b)) = l := by
  induction l with
  | nil => rfl
  | cons x xs ih => simpa [initIndices] using ih

lemma tryInitItemsFrom_fail (inits : Nat → Bool) (numItems k : Nat)
    (hk : k < numItems) (hfail : inits k = false) :
    ∀ d i, i + d = k → (∀ j, i ≤ j → j < k → inits j = true) →
      TryInitItemsFrom inits numItems i =
        (false, (List.range' i d).map (fun j => LifeEvent.initCall j true) ++
          LifeEvent.initCall k false :: CleanupItemsStartingAt k) := by
  intro d
  induction d with
  | zero =>
    intro i hi _
    have hik : i = k := by omega
    subst hik
    rw [TryInitItemsFrom]
    simp [hk, hfail]
  | succ d ih =>
    intro i hi hprev
    have hikk : i < k := by omega
    have hiN : i < numItems := by omega
    have hinit : inits i = true := hprev i le_rfl hikk
    rw [TryInitItemsFrom]
    have hr := ih (i + 1) (by omega) (fun j h1 h2 => hprev j (by omega) h2)
    simp [hiN, hinit, hr, List.range']

lemma tryInitItemsFrom_success (inits : Nat → Bool) (numItems : Nat)
    (hall : ∀ j, j < numItems → inits j = true) :
    ∀ d i, i + d = numItems →
      TryInitItemsFrom inits numItems i =
        (true, (List.range' i d).map (fun j => LifeEvent.initCall j true)) := by
  intro d
  induction d with
  | zero =>
    intro i hi
    rw [TryInitItemsFrom]
    have : ¬ i < numItems := by omega
    simp [this]
  | succ d ih =>
    intro i hi
    have hiN : i < numItems := by omega
    have hinit : inits i = true := hall i hiN
    rw [TryInitItemsFrom]
    have hr := ih (i + 1) (by omega)
    simp [hiN, hinit, hr, List.range']

/-- C1: if items `0..k-1` succeed and item `k` fails, `TryInitItems` returns
`false`; its trace is exactly the successful inits `0..k-1` in order, the
failing init of `k`, then the cleanups of exactly the items `k-1` down to `0`
in strictly reverse order; no item beyond `k` is ever init'ed or cleaned up,
and item `k` itself is never cleaned up. -/
theorem tryInitItems_rollback (inits : Nat → Bool) (numItems k : Nat)
    (hk : k < numItems) (hprev : ∀ j, j < k → inits j = true)
    (hfail : inits k = false) :
    TryInitItems inits numItems =
      (false, (List.range k).map (fun j => LifeEvent.initCall j true) ++
        LifeEvent.initCall k false ::
          (List.range k).reverse.map LifeEvent.cleanupCall) ∧
    cleanupIndices (TryInitItems inits numItems).2 = (List.range k).reverse ∧
    (∀ j, k ≤ j → LifeEvent.cleanupCall j ∉ (TryInitItems inits numItems).2) ∧
    (∀ j b, k < j → LifeEvent.initCall j b ∉ (TryInitItems inits numItems).2) := by
  have hmain : TryInitItems inits numItems =
      (false, (List.range k).map (fun j => LifeEvent.initCall j true) ++
        LifeEvent.initCall k false ::
          (List.range k).reverse.map LifeEvent.cleanupCall) := by
    have := tryInitItemsFrom_fail inits numItems k hk hfail k 0 (by omega)
      (fun j _ h2 => hprev j h2)
    rw [TryInitItems, this, CleanupItemsStartingAt, List.range_eq_range']
  refine ⟨hmain, ?_, ?_, ?_⟩
  · rw [hmain]
    show cleanupIndices (_ ++ ([LifeEvent.initCall k false] ++ _)) = _
    rw [cleanupIndices_append, cleanupIndices_append, cleanupIndices_map_init,
      cleanupIndices_map_cleanup]
    rfl
  · intro j hj
    rw [hmain]
    simp only [List.mem_append, List.mem_map, List.mem_cons, List.mem_reverse,
      List.mem_range]
    push_neg
    refine ⟨fun x _ => by simp, by simp, fun x hx => ?_⟩
    intro hEq
    have : x = j := by cases hEq; rfl
    omega
  · intro j b hj
    rw [hmain]
    simp only [List.mem_append, List.mem_map, List.mem_cons, List.mem_reverse,
      List.mem_range]
    push_neg
    refine ⟨fun x hx => ?_, ?_, fun x _ => by simp⟩
    · intro hEq
      have : x = j := by cases hEq; rfl
      omega
    · intro hEq
      have : k = j := by cases hEq; rfl
      omega

/-- Concrete run of `tryInitItems_rollback`: three items, item 1 fails. -/
theorem tryInitItems_rollback_witness :
    (1 < 3 ∧ (∀ j, j < 1 → (fun i => decide (i ≠ 1)) j = true) ∧
      (fun i : Nat => decide (i ≠ 1)) 1 = false) ∧
    TryInitItems (fun i => decide (i ≠ 1)) 3 =
      (false, (List.range 1).map (fun j => LifeEvent.initCall j true) ++
        LifeEvent.initCall 1 false ::
          (List.range 1).reverse.map LifeEvent.cleanupCall) := by
  refine ⟨⟨by omega, by decide, by decide⟩, ?_⟩
  exact (tryInitItems_rollback (fun i => decide (i ≠ 1)) 3 1 (by omega)
    (by decide) (by decide)).1

/-- C6: when every item's init succeeds, `TryInitItems` returns `true`, calls
each init exactly once in list order, and performs zero cleanup calls. -/
theorem tryInitItems_all_success (inits : Nat → Bool) (numItems : Nat)
    (hall : ∀ j, j < numItems → inits j = true) :
    TryInitItems inits numItems =
      (true, (List.range numItems).map (fun j => LifeEvent.initCall j true)) ∧
    initIndices (TryInitItems inits numItems).2 = List.range numItems ∧
    (∀ j, LifeEvent.cleanupCall j ∉ (TryInitItems inits numItems).2) := by
  have hmain : TryInitItems inits numItems =
      (true, (List.range numItems).map (fun j => LifeEvent.initCall j true)) := by
    have := tryInitItemsFrom_success inits numItems hall numItems 0 (by omega)
    rw [TryInitItems, this, List.range_eq_range']
  refine ⟨hmain, ?_, ?_⟩
  · rw [hmain]
    exact initIndices_map_init _ _
  · intro j
    rw [hmain]
    simp

/-- Concrete run of `tryInitItems_all_success`: four items, all succeed. -/
theorem tryInitItems_all_success_witness :
    (∀ j, j < 4 → (fun _ : Nat => true) j = true) ∧
    TryInitItems (fun _ => true) 4 =
      (true, (List.range 4).map (fun j => LifeEvent.initCall j true)) := by
  refine ⟨by decide, ?_⟩
  exact (tryInitItems_all_success (fun _ => true) 4 (by decide)).1

/-! ## Game object model (src/Game/Paddle.cpp and spec §3, §4.2)

Floats are modelled as exact rationals. -/

/-- A 2D float vector (`Vector2f`). -/
structure Vec2 where
  x : ℚ
  y : ℚ
deriving DecidableEq, Repr

/-- A 2D int vector (`Vector2i`), used for the window size. -/
structure Vector2i where
  x : ℤ
  y : ℤ
deriving DecidableEq, Repr

/-- Shared motion state of paddles and the ball (spec §3 GameObject). -/
structure GameObject where
  position : Vec2
  moveDirection : Vec2
  moveSpeed : ℚ
deriving DecidableEq, Repr

/-- Modelled from the spec: `GameObject::Update` (GameObject.cpp is not under
src/; spec §4.2): pure translation `position += moveDirection * moveSpeed * delta`,
touching no other field. -/
def GameObject.Update (o : GameObject) (delta : ℚ) : GameObject :=
  { o with position :=
      ⟨o.position.x + o.moveDirection.x * o.moveSpeed * delta,
       o.position.y + o.moveDirection.y * o.moveSpeed * delta⟩ }

/-- A paddle (src/Game/Paddle.h): a game object with a size and a fixed
horizontal facing direction. -/
structure Paddle extends GameObject where
  size : Vec2
  forward : ℚ
deriving DecidableEq, Repr

/-- Embedding of `Paddle::CollideAgainstTerrain` (src/Game/Paddle.cpp:33-44).
`postUpdatePosition` is the position captured by `Paddle::Update` before the
motion step (the C++ variable name notwithstanding); on collision the whole
position is restored to it. `0.1f` is the exact rational `1/10`. -/
def Paddle.CollideAgainstTerrain (p : Paddle) (winSize : Vector2i)
    (postUpdatePosition : Vec2) : Paddle :=
  let kMinTerrainOffset := p.size.y * (1 / 10)
  if p.position.y + kMinTerrainOffset > (winSize.y : ℚ) - p.size.y / 2 ∨
     p.position.y - kMinTerrainOffset < p.size.y / 2 then
    { p with position := postUpdatePosition }
  else
    p

/-- Embedding of `Paddle::Update` (src/Game/Paddle.cpp:25-31): capture the
current position, run the motion step, then resolve terrain collision
against the captured position. -/
def Paddle.Update (p : Paddle) (delta : ℚ) (winSize : Vector2i) : Paddle :=
  let kPostUpdatePosition := p.position
  let p1 : Paddle := { p with toGameObject := p.toGameObject.Update delta }
  p1.CollideAgainstTerrain winSize kPostUpdatePosition

/-- Embedding of `Paddle::Reset` (src/Game/Paddle.cpp:46-52): recenter
vertically (x is kept), zero the motion. -/
def Paddle.Reset (p : Paddle) (winSize : Vector2i) : Paddle :=
  { p with
    position := ⟨p.position.x, (winSize.y : ℚ) / 2⟩
    moveSpeed := 0
    moveDirection := ⟨0, 0⟩ }

/-- A ball (src/Game/Ball.h): a game object with a fixed radius. -/
structure Ball extends GameObject where
  radius : ℚ
deriving DecidableEq, Repr

/-- `skWinSize` (src/lepong.cpp:20). -/
def skWinSize : Vector2i := ⟨1280, 720⟩

/-- `skBallRadius` (src/lepong.cpp:38). -/
def skBallRadius : ℚ := 20

/-- `skPaddleSize` (src/lepong.cpp:43). -/
def skPaddleSize : Vec2 := ⟨25, 150⟩

/-- Modelled from the spec: the fixed rally speed increment of the
ball-paddle bounce (Ball.cpp is not under src/; spec §4.3). -/
def skBallSpeedIncrement : ℚ := 50

/-- `Ball::Update` delegates to the shared motion primitive (spec §4.2). -/
def Ball.Update (b : Ball) (delta : ℚ) : Ball :=
  { b with toGameObject := b.toGameObject.Update delta }

/-- Modelled from the spec: `Ball::CollideWithTerrain` (Ball.cpp is not under
src/; spec §4.3): if the vertical position plus the radius exceeds either
terrain edge, negate `moveDirection.y` and correct the position back in
bounds.  Also reports whether a bounce was resolved. -/
def Ball.CollideWithTerrain (b : Ball) (winSize : Vector2i) : Ball × Bool :=
  if b.position.y + b.radius > (winSize.y : ℚ) then
    ({ b with
       position := ⟨b.position.x, (winSize.y : ℚ) - b.radius⟩
       moveDirection := ⟨b.moveDirection.x, -b.moveDirection.y⟩ }, true)
  else if b.position.y - b.radius < 0 then
    ({ b with
       position := ⟨b.position.x, b.radius⟩
       moveDirection := ⟨b.moveDirection.x, -b.moveDirection.y⟩ }, true)
  else
    (b, false)

/-- Modelled from the spec: `Ball::CollideWith` (Ball.cpp is not under src/;
spec §4.3): AABB overlap between the ball's bounding square (side `2*radius`)
and the paddle rectangle; on overlap negate `moveDirection.x` and add the
fixed speed increment; returns whether a collision was resolved. -/
def Ball.CollideWith (b : Ball) (p : Paddle) : Ball × Bool :=
  if |b.position.x - p.position.x| < b.radius + p.size.x / 2 ∧
     |b.position.y - p.position.y| < b.radius + p.size.y / 2 then
    ({ b with
       moveDirection := ⟨-b.moveDirection.x, b.moveDirection.y⟩
       moveSpeed := b.moveSpeed + skBallSpeedIncrement }, true)
  else
    (b, false)

/-- Which vertical boundary the ball has crossed (spec §3 Side). -/
inductive Side where
  | Left
  | Right
  | None
deriving DecidableEq, Repr

/-- Modelled from the spec: the numeric enum values of `Side` (its header is
not under src/).  `UpdateScores` computes the winner index as
`1u - (unsigned)lostSide`, and spec §8 scenario B (right boundary crossed →
left player scores) forces `Left = 0`, `Right = 1`. -/
def Side.toIndex : Side → Nat
  | Side.Left => 0
  | Side.Right => 1
  | Side.None => 2

/-- Modelled from the spec: `Ball::GetTouchingSide` (Ball.cpp is not under
src/; spec §4.3): the side whose terrain edge the ball has fully crossed,
else `Side.None`. -/
def Ball.GetTouchingSide (b : Ball) (winSize : Vector2i) : Side :=
  if b.position.x + b.radius < 0 then Side.Left
  else if b.position.x - b.radius > (winSize.x : ℚ) then Side.Right
  else Side.None

/-- Modelled from the spec: `Ball::Reset` (Ball.cpp is not under src/;
spec §4.4: ball returns to a fixed starting position with zeroed motion,
§8 scenario A: idle ball is centered). -/
def Ball.Reset (b : Ball) (winSize : Vector2i) : Ball :=
  { b with
    position := ⟨(winSize.x : ℚ) / 2, (winSize.y : ℚ) / 2⟩
    moveSpeed := 0
    moveDirection := ⟨0, 0⟩ }

/-- C7: the motion primitive is pure translation: the new position is exactly
`P + D*S*T`, direction and speed are untouched, and (being a pure function of
its arguments) repeated calls from identical state give identical results. -/
theorem gameObject_update_linear (o : GameObject) (delta : ℚ)
    (_hdir : o.moveDirection.x ^ 2 + o.moveDirection.y ^ 2 = 1 ∨
      o.moveDirection = ⟨0, 0⟩)
    (_hspeed : 0 ≤ o.moveSpeed) (_hdelta : 0 ≤ delta) :
    (o.Update delta).position =
      ⟨o.position.x + o.moveDirection.x * o.moveSpeed * delta,
       o.position.y + o.moveDirection.y * o.moveSpeed * delta⟩ ∧
    (o.Update delta).moveDirection = o.moveDirection ∧
    (o.Update delta).moveSpeed = o.moveSpeed := ⟨rfl, rfl, rfl⟩

/-- Concrete run of `gameObject_update_linear`: unit direction `(3/5, 4/5)`,
speed 10, delta 2. -/
theorem gameObject_update_linear_witness :
    ((3 / 5 : ℚ) ^ 2 + (4 / 5 : ℚ) ^ 2 = 1 ∨ (⟨3 / 5, 4 / 5⟩ : Vec2) = ⟨0, 0⟩) ∧
    (0 : ℚ) ≤ 10 ∧ (0 : ℚ) ≤ 2 ∧
    (GameObject.Update ⟨⟨1, 2⟩, ⟨3 / 5, 4 / 5⟩, 10⟩ 2).position =
      ⟨1 + 3 / 5 * 10 * 2, 2 + 4 / 5 * 10 * 2⟩ := by
  refine ⟨Or.inl (by norm_num), by norm_num, by norm_num, ?_⟩
  exact (gameObject_update_linear ⟨⟨1, 2⟩, ⟨3 / 5, 4 / 5⟩, 10⟩ 2
    (Or.inl (by norm_num)) (by norm_num) (by norm_num)).1

/-- C3: a paddle update whose post-update position would put the paddle
rectangle's edge, inset by the 10%-height margin, past the top or bottom
terrain boundary, leaves the paddle at its pre-update position (the movement
is rejected outright, not clamped to the boundary). -/
theorem paddle_update_rejects_edge_overflow (p : Paddle) (delta : ℚ)
    (winSize : Vector2i) (hsize : 0 ≤ p.size.y)
    (hedge :
      (p.toGameObject.Update delta).position.y + p.size.y / 2 - p.size.y / 10 >
        (winSize.y : ℚ) ∨
      (p.toGameObject.Update delta).position.y - p.size.y / 2 + p.size.y / 10 <
        0) :
    (p.Update delta winSize).position = p.position := by
  have hcond :
      (p.toGameObject.Update delta).position.y + p.size.y * (1 / 10) >
        (winSize.y : ℚ) - p.size.y / 2 ∨
      (p.toGameObject.Update delta).position.y - p.size.y * (1 / 10) <
        p.size.y / 2 := by
    rcases hedge with h | h
    · exact Or.inl (by linarith)
    · exact Or.inr (by linarith)
  simp only [Paddle.Update, Paddle.CollideAgainstTerrain]
  rw [if_pos hcond]

/-- Concrete run of `paddle_update_rejects_edge_overflow`: a paddle moving up
past the top boundary is left at its pre-update position. -/
theorem paddle_update_rejects_edge_overflow_witness :
    (0 : ℚ) ≤ skPaddleSize.y ∧
    ((Paddle.toGameObject ⟨⟨⟨50, 700⟩, ⟨0, 1⟩, 100⟩, skPaddleSize, 1⟩).Update
        1).position.y + skPaddleSize.y / 2 - skPaddleSize.y / 10 >
      ((skWinSize.y : ℤ) : ℚ) ∧
    (Paddle.Update ⟨⟨⟨50, 700⟩, ⟨0, 1⟩, 100⟩, skPaddleSize, 1⟩ 1
      skWinSize).position = ⟨50, 700⟩ := by
  refine ⟨by norm_num [skPaddleSize], ?_, ?_⟩
  · norm_num [skPaddleSize, skWinSize, GameObject.Update]
  · exact paddle_update_rejects_edge_overflow
      ⟨⟨⟨50, 700⟩, ⟨0, 1⟩, 100⟩, skPaddleSize, 1⟩ 1 skWinSize
      (by norm_num [skPaddleSize])
      (Or.inl (by norm_num [skPaddleSize, skWinSize, GameObject.Update]))

/-! ## Match state controller and per-frame update (src/lepong.cpp:640-714)

The mutable globals `sPlaying`, `sPlayerScores`, `sBall`, `sPaddle1`,
`sPaddle2` become an explicit state record; `OnUpdate` additionally returns
the trace of rule-engine events of the frame. -/

/-- The game-state globals of src/lepong.cpp. -/
structure GameState where
  playing : Bool
  scores : ℕ × ℕ
  ball : Ball
  paddle1 : Paddle
  paddle2 : Paddle
deriving DecidableEq, Repr

/-- Observable events of one frame of the collision/rules engine. -/
inductive FrameEvent where
  | terrainBounce
  | paddleBounce (i : Nat)
  | sideCheck
  | score (s : Side)
  | reset
deriving DecidableEq, Repr

/-- Embedding of `UpdateScores` (src/lepong.cpp:710-714): the winner's index
is `1u - (unsigned)lostSide`; that player's score is incremented. -/
def UpdateScores (scores : ℕ × ℕ) (lostSide : Side) : ℕ × ℕ :=
  if 1 - lostSide.toIndex = 0 then (scores.1 + 1, scores.2)
  else (scores.1, scores.2 + 1)

/-- Embedding of `ResetGameState` (src/lepong.cpp:640-648): reset the ball and
both paddles and leave the Playing state. -/
def ResetGameState (s : GameState) : GameState :=
  { s with
    ball := s.ball.Reset skWinSize
    paddle1 := s.paddle1.Reset skWinSize
    paddle2 := s.paddle2.Reset skWinSize
    playing := false }

/-- Embedding of `CheckBallSideCollision` (src/lepong.cpp:699-708): evaluate
the touching side; on `Left`/`Right` update the scores and reset the game
state.  The trace records that the side check ran and what it did. -/
def CheckBallSideCollision (s : GameState) : GameState × List FrameEvent :=
  let kSide := s.ball.GetTouchingSide skWinSize
  if kSide ≠ Side.None then
    (ResetGameState { s with scores := UpdateScores s.scores kSide },
     [FrameEvent.sideCheck, FrameEvent.score kSide, FrameEvent.reset])
  else
    (s, [FrameEvent.sideCheck])

/-- Embedding of `OnUpdate` (src/lepong.cpp:674-691): move the ball and the
paddles, resolve the ball-terrain bounce (its outcome is not consulted),
then the short-circuited ball-paddle collisions; only when neither paddle
collided is the side-scoring check evaluated. -/
def OnUpdate (delta : ℚ) (s : GameState) : GameState × List FrameEvent :=
  let ball1 := s.ball.Update delta
  let p1 := s.paddle1.Update delta skWinSize
  let p2 := s.paddle2.Update delta skWinSize
  let tb := ball1.CollideWithTerrain skWinSize
  let c1 := tb.1.CollideWith p1
  let c2 := if c1.2 then c1 else c1.1.CollideWith p2
  let kCollides := c1.2 || c2.2
  let s1 := { s with ball := c2.1, paddle1 := p1, paddle2 := p2 }
  let evs :=
    (if tb.2 then [FrameEvent.terrainBounce] else []) ++
    (if c1.2 then [FrameEvent.paddleBounce 1]
     else if c2.2 then [FrameEvent.paddleBounce 2] else [])
  if kCollides then
    (s1, evs)
  else
    let r := CheckBallSideCollision s1
    (r.1, evs ++ r.2)

lemma collideWith_snd_false (b : Ball) (p : Paddle)
    (h : (b.CollideWith p).2 = false) : (b.CollideWith p).1 = b := by
  by_cases hc : |b.position.x - p.position.x| < b.radius + p.size.x / 2 ∧
      |b.position.y - p.position.y| < b.radius + p.size.y / 2
  · rw [Ball.CollideWith, if_pos hc] at h
    simp at h
  · rw [Ball.CollideWith, if_neg hc]

lemma ball_reset_position (b : Ball) :
    (b.Reset skWinSize).position = ⟨640, 360⟩ := by
  norm_num [Ball.Reset, skWinSize]

lemma paddle_reset_y (p : Paddle) : (p.Reset skWinSize).position.y = 360 := by
  norm_num [Paddle.Reset, skWinSize]

/-- A frame state refuting C2: the ball is in the top-left corner, both past
the left edge and overlapping the top edge, away from both paddles. -/
def cornerFrameState : GameState :=
  { playing := true
    scores := (0, 0)
    ball := ⟨⟨⟨-25, 715⟩, ⟨0, 1⟩, 0⟩, 20⟩
    paddle1 := ⟨⟨⟨50, 360⟩, ⟨0, 0⟩, 0⟩, skPaddleSize, 1⟩
    paddle2 := ⟨⟨⟨1230, 360⟩, ⟨0, 0⟩, 0⟩, skPaddleSize, -1⟩ }

/-- Counterexample to C2 as stated: in this frame a ball-terrain vertical
bounce is resolved, yet the side-scoring check still runs, a score is
incremented and the game state is reset.  `OnUpdate` (src/lepong.cpp:674-691)
discards the result of `CollideWithTerrain` and gates the scoring check on
the paddle collisions only. -/
theorem onUpdate_terrain_bounce_still_scores :
    FrameEvent.terrainBounce ∈ (OnUpdate 0 cornerFrameState).2 ∧
    FrameEvent.sideCheck ∈ (OnUpdate 0 cornerFrameState).2 ∧
    FrameEvent.reset ∈ (OnUpdate 0 cornerFrameState).2 ∧
    (OnUpdate 0 cornerFrameState).1.scores ≠ cornerFrameState.scores := by
  have h : (OnUpdate 0 cornerFrameState).2 =
      [FrameEvent.terrainBounce, FrameEvent.sideCheck,
       FrameEvent.score Side.Left, FrameEvent.reset] ∧
      (OnUpdate 0 cornerFrameState).1.scores = (0, 1) := by
    norm_num [OnUpdate, Ball.Update, GameObject.Update, Paddle.Update,
      Paddle.CollideAgainstTerrain, Ball.CollideWithTerrain, Ball.CollideWith,
      Ball.GetTouchingSide, CheckBallSideCollision, UpdateScores,
      ResetGameState, Ball.Reset, Paddle.Reset, Side.toIndex, skWinSize,
      skPaddleSize, skBallSpeedIncrement, cornerFrameState]
    decide
  refine ⟨?_, ?_, ?_, ?_⟩
  · rw [h.1]; simp
  · rw [h.1]; simp
  · rw [h.1]; simp
  · rw [h.2]; simp [cornerFrameState]

/-- C2 as amended: in any frame in which a ball-paddle bounce is resolved,
the side-scoring check is never evaluated, so no score increment and no
reset occur that frame.  (A terrain bounce alone does not suppress the
check: see the counterexample.) -/
theorem onUpdate_paddle_bounce_no_scoring (delta : ℚ) (s : GameState)
    (hpad :
      ((((s.ball.Update delta).CollideWithTerrain skWinSize).1.CollideWith
        (s.paddle1.Update delta skWinSize)).2 = true) ∨
      ((((s.ball.Update delta).CollideWithTerrain skWinSize).1.CollideWith
        (s.paddle2.Update delta skWinSize)).2 = true)) :
    FrameEvent.sideCheck ∉ (OnUpdate delta s).2 ∧
    (OnUpdate delta s).1.scores = s.scores ∧
    FrameEvent.reset ∉ (OnUpdate delta s).2 ∧
    (∀ sd, FrameEvent.score sd ∉ (OnUpdate delta s).2) := by
  by_cases hc1 : (((s.ball.Update delta).CollideWithTerrain skWinSize).1.CollideWith
      (s.paddle1.Update delta skWinSize)).2 = true
  · by_cases htb : ((s.ball.Update delta).CollideWithTerrain skWinSize).2 = true <;>
      simp [OnUpdate, hc1, htb]
  · have hc1f : (((s.ball.Update delta).CollideWithTerrain skWinSize).1.CollideWith
        (s.paddle1.Update delta skWinSize)).2 = false := by
      simpa using hc1
    have hc2 : ((((s.ball.Update delta).CollideWithTerrain skWinSize).1.CollideWith
        (s.paddle1.Update delta skWinSize)).1.CollideWith
          (s.paddle2.Update delta skWinSize)).2 = true := by
      rw [collideWith_snd_false _ _ hc1f]
      rcases hpad with h | h
      · exact absurd h hc1
      · exact h
    by_cases htb : ((s.ball.Update delta).CollideWithTerrain skWinSize).2 = true <;>
      simp [OnUpdate, hc1f, hc2, htb]

/-- A frame state in which the ball overlaps paddle 1 and nothing else. -/
def paddleHitState : GameState :=
  { playing := true
    scores := (0, 0)
    ball := ⟨⟨⟨60, 360⟩, ⟨-1, 0⟩, 100⟩, 20⟩
    paddle1 := ⟨⟨⟨50, 360⟩, ⟨0, 0⟩, 0⟩, skPaddleSize, 1⟩
    paddle2 := ⟨⟨⟨1230, 360⟩, ⟨0, 0⟩, 0⟩, skPaddleSize, -1⟩ }

/-- Concrete run of `onUpdate_paddle_bounce_no_scoring`: a paddle-1 bounce
frame evaluates no side check. -/
theorem onUpdate_paddle_bounce_no_scoring_witness :
    ((((paddleHitState.ball.Update 0).CollideWithTerrain skWinSize).1.CollideWith
      (paddleHitState.paddle1.Update 0 skWinSize)).2 = true) ∧
    FrameEvent.sideCheck ∉ (OnUpdate 0 paddleHitState).2 ∧
    (OnUpdate 0 paddleHitState).1.scores = paddleHitState.scores := by
  have hhit : (((paddleHitState.ball.Update 0).CollideWithTerrain
      skWinSize).1.CollideWith (paddleHitState.paddle1.Update 0 skWinSize)).2 =
        true := by
    norm_num [Ball.Update, GameObject.Update, Paddle.Update,
      Paddle.CollideAgainstTerrain, Ball.CollideWithTerrain, Ball.CollideWith,
      skWinSize, skPaddleSize, paddleHitState]
  have h := onUpdate_paddle_bounce_no_scoring 0 paddleHitState (Or.inl hhit)
  exact ⟨hhit, h.1, h.2.1⟩

/-- C4: in a Playing frame where the ball has fully crossed a side boundary
and neither paddle collision resolves, the player opposite the crossed side
gains exactly one point (the other score unchanged), exactly one reset runs
this frame, the ball returns to the terrain center with zeroed motion, both
paddles return to the vertical center with zeroed motion, and the playing
flag returns to false. -/
theorem onUpdate_side_crossing_scores (delta : ℚ) (s : GameState) (sd : Side)
    (_hplay : s.playing = true)
    (hnc1 : ((((s.ball.Update delta).CollideWithTerrain skWinSize).1).CollideWith
      (s.paddle1.Update delta skWinSize)).2 = false)
    (hnc2 : ((((s.ball.Update delta).CollideWithTerrain skWinSize).1).CollideWith
      (s.paddle2.Update delta skWinSize)).2 = false)
    (hside : (((s.ball.Update delta).CollideWithTerrain skWinSize).1).GetTouchingSide
      skWinSize = sd)
    (hsd : sd ≠ Side.None) :
    (OnUpdate delta s).1.scores =
      (if sd = Side.Left then (s.scores.1, s.scores.2 + 1)
       else (s.scores.1 + 1, s.scores.2)) ∧
    (OnUpdate delta s).1.playing = false ∧
    (OnUpdate delta s).1.ball.position = ⟨640, 360⟩ ∧
    (OnUpdate delta s).1.ball.moveSpeed = 0 ∧
    (OnUpdate delta s).1.ball.moveDirection = ⟨0, 0⟩ ∧
    (OnUpdate delta s).1.paddle1.position.y = 360 ∧
    (OnUpdate delta s).1.paddle1.moveSpeed = 0 ∧
    (OnUpdate delta s).1.paddle1.moveDirection = ⟨0, 0⟩ ∧
    (OnUpdate delta s).1.paddle2.position.y = 360 ∧
    (OnUpdate delta s).1.paddle2.moveSpeed = 0 ∧
    (OnUpdate delta s).1.paddle2.moveDirection = ⟨0, 0⟩ ∧
    (OnUpdate delta s).2.count FrameEvent.reset = 1 ∧
    (OnUpdate delta s).2.count (FrameEvent.score sd) = 1 := by
  have hb2 := collideWith_snd_false _ _ hnc1
  have hb3 := collideWith_snd_false _ _ hnc2
  cases sd with
  | None => exact absurd rfl hsd
  | Left =>
    by_cases htb : ((s.ball.Update delta).CollideWithTerrain skWinSize).2 = true <;>
      simp [OnUpdate, CheckBallSideCollision, ResetGameState, UpdateScores,
        Side.toIndex, Ball.Reset, Paddle.Reset, ball_reset_position, paddle_reset_y,
        hnc1, hnc2, hb2, hb3, hside, htb, List.count_append, List.count_cons] <;>
      norm_num [skWinSize]
  | Right =>
    by_cases htb : ((s.ball.Update delta).CollideWithTerrain skWinSize).2 = true <;>
      simp [OnUpdate, CheckBallSideCollision, ResetGameState, UpdateScores,
        Side.toIndex, Ball.Reset, Paddle.Reset, ball_reset_position, paddle_reset_y,
        hnc1, hnc2, hb2, hb3, hside, htb, List.count_append, List.count_cons] <;>
      norm_num [skWinSize]

/-- A Playing frame state in which the ball has fully crossed the left edge
and touches nothing else. -/
def leftCrossState : GameState :=
  { playing := true
    scores := (0, 0)
    ball := ⟨⟨⟨-25, 360⟩, ⟨-1, 0⟩, 100⟩, 20⟩
    paddle1 := ⟨⟨⟨50, 360⟩, ⟨0, 0⟩, 0⟩, skPaddleSize, 1⟩
    paddle2 := ⟨⟨⟨1230, 360⟩, ⟨0, 0⟩, 0⟩, skPaddleSize, -1⟩ }

/-- Concrete run of `onUpdate_side_crossing_scores`: the ball crosses the
left edge, the right player (index 1) scores and the state resets. -/
theorem onUpdate_side_crossing_scores_witness :
    (leftCrossState.playing = true ∧
     ((((leftCrossState.ball.Update 0).CollideWithTerrain
       skWinSize).1).CollideWith
         (leftCrossState.paddle1.Update 0 skWinSize)).2 = false ∧
     ((((leftCrossState.ball.Update 0).CollideWithTerrain
       skWinSize).1).CollideWith
         (leftCrossState.paddle2.Update 0 skWinSize)).2 = false ∧
     (((leftCrossState.ball.Update 0).CollideWithTerrain
       skWinSize).1).GetTouchingSide skWinSize = Side.Left) ∧
    (OnUpdate 0 leftCrossState).1.scores = (0, 1) ∧
    (OnUpdate 0 leftCrossState).1.playing = false := by
  have hnc1 : ((((leftCrossState.ball.Update 0).CollideWithTerrain
      skWinSize).1).CollideWith
        (leftCrossState.paddle1.Update 0 skWinSize)).2 = false := by
    norm_num [Ball.Update, GameObject.Update, Paddle.Update,
      Paddle.CollideAgainstTerrain, Ball.CollideWithTerrain, Ball.CollideWith,
      skWinSize, skPaddleSize, leftCrossState]
  have hnc2 : ((((leftCrossState.ball.Update 0).CollideWithTerrain
      skWinSize).1).CollideWith
        (leftCrossState.paddle2.Update 0 skWinSize)).2 = false := by
    norm_num [Ball.Update, GameObject.Update, Paddle.Update,
      Paddle.CollideAgainstTerrain, Ball.CollideWithTerrain, Ball.CollideWith,
      skWinSize, skPaddleSize, leftCrossState]
  have hside : (((leftCrossState.ball.Update 0).CollideWithTerrain
      skWinSize).1).GetTouchingSide skWinSize = Side.Left := by
    norm_num [Ball.Update, GameObject.Update, Ball.CollideWithTerrain,
      Ball.GetTouchingSide, skWinSize, leftCrossState]
  have h := onUpdate_side_crossing_scores 0 leftCrossState Side.Left rfl
    hnc1 hnc2 hside (by simp)
  refine ⟨⟨rfl, hnc1, hnc2, hside⟩, ?_, h.2.1⟩
  simpa [leftCrossState] using h.1

/-! ## Launch transition (src/lepong.cpp:293-311, 368-374)

The launch involves `Normalize` of a `(±1, ±1)` vector, so this part of the
model lives over the reals.  The state carries the `sPlaying` flag, the
ball's motion fields and, for the paddle key handlers, the list of paddle
input notifications delivered so far. -/

/-- A 2D real vector, for the direction computations involving square roots. -/
structure Vec2R where
  x : ℝ
  y : ℝ

/-- A paddle movement notification (`Paddle::OnMove...`, src/lepong.cpp:320-366;
the paddle handler bodies are not under src/ and only receive these calls). -/
inductive PaddleInput where
  | upPressed
  | downPressed
  | upReleased
  | downReleased
deriving DecidableEq, Repr

/-- The state read and written by `OnKeyEvent`: the `sPlaying` flag, the
ball's motion fields, and the notifications delivered to each paddle. -/
structure LaunchState where
  playing : Bool
  ballMoveSpeed : ℝ
  ballMoveDirection : Vec2R
  paddle1Inputs : List PaddleInput
  paddle2Inputs : List PaddleInput

/-- Modelled from the spec: `Normalize` (the Math module is not under src/):
the vector divided by its Euclidean length. -/
noncomputable def Normalize (v : Vec2R) : Vec2R :=
  let len := Real.sqrt (v.x ^ 2 + v.y ^ 2)
  ⟨v.x / len, v.y / len⟩

/-- Modelled from the spec: `Ball::skDefaultMoveSpeed` (Ball.h is not under
src/; the spec only requires a fixed default constant). -/
noncomputable def skDefaultMoveSpeed : ℝ := 300

/-- `skP2Up = VK_UP` (src/lepong.cpp:315). -/
def skP2Up : Int := 38

/-- `skP2Down = VK_DOWN` (src/lepong.cpp:316). -/
def skP2Down : Int := 40

/-- `skP1Up = 'W'` (src/lepong.cpp:317). -/
def skP1Up : Int := 87

/-- `skP1Down = 'S'` (src/lepong.cpp:318). -/
def skP1Down : Int := 83

/-- The launch key `VK_SPACE` (src/lepong.cpp:306). -/
def VK_SPACE : Int := 32

/-- Embedding of `OnKeyUp` (src/lepong.cpp:320-342): dispatch a release
notification to the matching paddle. -/
def OnKeyUp (key : Int) (s : LaunchState) : LaunchState :=
  if key = skP2Up then
    { s with paddle2Inputs := s.paddle2Inputs ++ [PaddleInput.upReleased] }
  else if key = skP2Down then
    { s with paddle2Inputs := s.paddle2Inputs ++ [PaddleInput.downReleased] }
  else if key = skP1Up then
    { s with paddle1Inputs := s.paddle1Inputs ++ [PaddleInput.upReleased] }
  else if key = skP1Down then
    { s with paddle1Inputs := s.paddle1Inputs ++ [PaddleInput.downReleased] }
  else s

/-- Embedding of `OnKeyDown` (src/lepong.cpp:344-366): dispatch a press
notification to the matching paddle. -/
def OnKeyDown (key : Int) (s : LaunchState) : LaunchState :=
  if key = skP2Up then
    { s with paddle2Inputs := s.paddle2Inputs ++ [PaddleInput.upPressed] }
  else if key = skP2Down then
    { s with paddle2Inputs := s.paddle2Inputs ++ [PaddleInput.downPressed] }
  else if key = skP1Up then
    { s with paddle1Inputs := s.paddle1Inputs ++ [PaddleInput.upPressed] }
  else if key = skP1Down then
    { s with paddle1Inputs := s.paddle1Inputs ++ [PaddleInput.downPressed] }
  else s

/-- Embedding of `LaunchBall` (src/lepong.cpp:368-374): set the default
speed and normalize a random-sign diagonal.  `RandomSignFloat` (Math, not
under src/) is modelled by the two sign parameters `s1`, `s2`. -/
noncomputable def LaunchBall (s1 s2 : ℝ) (s : LaunchState) : LaunchState :=
  { s with
    ballMoveSpeed := skDefaultMoveSpeed
    ballMoveDirection := Normalize ⟨s1, s2⟩ }

/-- Embedding of `OnKeyEvent` (src/lepong.cpp:293-311): while Playing,
dispatch to the paddle key handlers; while Idle, a press of the launch key
(and nothing else) sets Playing and launches the ball. -/
noncomputable def OnKeyEvent (key : Int) (pressed : Bool) (s1 s2 : ℝ)
    (s : LaunchState) : LaunchState :=
  if s.playing then
    if pressed then OnKeyDown key s else OnKeyUp key s
  else if pressed = true ∧ key = VK_SPACE then
    LaunchBall s1 s2 { s with playing := true }
  else s

lemma onKeyUp_motion (key : Int) (s : LaunchState) :
    (OnKeyUp key s).playing = s.playing ∧
    (OnKeyUp key s).ballMoveSpeed = s.ballMoveSpeed ∧
    (OnKeyUp key s).ballMoveDirection = s.ballMoveDirection := by
  unfold OnKeyUp
  split_ifs <;> simp

lemma onKeyDown_motion (key : Int) (s : LaunchState) :
    (OnKeyDown key s).playing = s.playing ∧
    (OnKeyDown key s).ballMoveSpeed = s.ballMoveSpeed ∧
    (OnKeyDown key s).ballMoveDirection = s.ballMoveDirection := by
  unfold OnKeyDown
  split_ifs <;> simp

/-- C5: pressing the launch key while Idle sets Playing, the default ball
speed, and a direction `(±1, ±1)/√2` — a unit vector whose components are
each within `0.001` of `±0.707`; the transition never fires while already
Playing and never fires on a key release. -/
theorem onKeyEvent_launch (key : Int) (pressed : Bool) (s1 s2 : ℝ)
    (s : LaunchState) (hs1 : s1 = 1 ∨ s1 = -1) (hs2 : s2 = 1 ∨ s2 = -1) :
    (s.playing = false → pressed = true → key = VK_SPACE →
      (OnKeyEvent key pressed s1 s2 s).playing = true ∧
      (OnKeyEvent key pressed s1 s2 s).ballMoveSpeed = skDefaultMoveSpeed ∧
      (OnKeyEvent key pressed s1 s2 s).ballMoveDirection =
        ⟨s1 / Real.sqrt 2, s2 / Real.sqrt 2⟩ ∧
      (OnKeyEvent key pressed s1 s2 s).ballMoveDirection.x ^ 2 +
        (OnKeyEvent key pressed s1 s2 s).ballMoveDirection.y ^ 2 = 1 ∧
      |(|(OnKeyEvent key pressed s1 s2 s).ballMoveDirection.x| - 707 / 1000)| <
        1 / 1000 ∧
      |(|(OnKeyEvent key pressed s1 s2 s).ballMoveDirection.y| - 707 / 1000)| <
        1 / 1000) ∧
    (s.playing = true →
      (OnKeyEvent key pressed s1 s2 s).playing = true ∧
      (OnKeyEvent key pressed s1 s2 s).ballMoveSpeed = s.ballMoveSpeed ∧
      (OnKeyEvent key pressed s1 s2 s).ballMoveDirection =
        s.ballMoveDirection) ∧
    (pressed = false →
      (OnKeyEvent key pressed s1 s2 s).playing = s.playing ∧
      (OnKeyEvent key pressed s1 s2 s).ballMoveSpeed = s.ballMoveSpeed ∧
      (OnKeyEvent key pressed s1 s2 s).ballMoveDirection =
        s.ballMoveDirection) := by
  have hsqrt2_pos : (0 : ℝ) < Real.sqrt 2 := Real.sqrt_pos.mpr (by norm_num)
  have hsq : Real.sqrt 2 ^ 2 = 2 := Real.sq_sqrt (by norm_num)
  have hs1sq : s1 ^ 2 = 1 := by rcases hs1 with h | h <;> norm_num [h]
  have hs2sq : s2 ^ 2 = 1 := by rcases hs2 with h | h <;> norm_num [h]
  have habs1 : |s1| = 1 := by rcases hs1 with h | h <;> norm_num [h]
  have habs2 : |s2| = 1 := by rcases hs2 with h | h <;> norm_num [h]
  have hnorm : Normalize ⟨s1, s2⟩ = ⟨s1 / Real.sqrt 2, s2 / Real.sqrt 2⟩ := by
    unfold Normalize
    simp only [hs1sq, hs2sq]
    norm_num
  have hb1 : (0.706 : ℝ) < 1 / Real.sqrt 2 := by
    rw [lt_div_iff₀ hsqrt2_pos]
    nlinarith [hsq, hsqrt2_pos]
  have hb2 : 1 / Real.sqrt 2 < (0.708 : ℝ) := by
    rw [div_lt_iff₀ hsqrt2_pos]
    nlinarith [hsq, hsqrt2_pos]
  have habsdiv1 : |s1 / Real.sqrt 2| = 1 / Real.sqrt 2 := by
    rw [abs_div, habs1, abs_of_pos hsqrt2_pos]
  have habsdiv2 : |s2 / Real.sqrt 2| = 1 / Real.sqrt 2 := by
    rw [abs_div, habs2, abs_of_pos hsqrt2_pos]
  refine ⟨?_, ?_, ?_⟩
  · intro hidle hpress hkey
    have hev : OnKeyEvent key pressed s1 s2 s =
        LaunchBall s1 s2 { s with playing := true } := by
      rw [OnKeyEvent, if_neg (by simp [hidle]), if_pos ⟨hpress, hkey⟩]
    rw [hev]
    unfold LaunchBall
    rw [hnorm]
    refine ⟨rfl, rfl, rfl, ?_, ?_, ?_⟩
    · show (s1 / Real.sqrt 2) ^ 2 + (s2 / Real.sqrt 2) ^ 2 = 1
      rw [div_pow, div_pow, hs1sq, hs2sq, hsq]
      norm_num
    · show |(|s1 / Real.sqrt 2| - 707 / 1000)| < 1 / 1000
      rw [habsdiv1, abs_lt]
      constructor <;> nlinarith [hb1, hb2]
    · show |(|s2 / Real.sqrt 2| - 707 / 1000)| < 1 / 1000
      rw [habsdiv2, abs_lt]
      constructor <;> nlinarith [hb1, hb2]
  · intro hplay
    have hev : OnKeyEvent key pressed s1 s2 s =
        if pressed then OnKeyDown key s else OnKeyUp key s := by
      rw [OnKeyEvent, if_pos (by simp [hplay])]
    rw [hev]
    cases pressed
    · simpa [hplay] using onKeyUp_motion key s
    · simpa [hplay] using onKeyDown_motion key s
  · intro hrel
    by_cases hplay : s.playing
    · have hev : OnKeyEvent key pressed s1 s2 s = OnKeyUp key s := by
        rw [OnKeyEvent, if_pos (by simp [hplay]), hrel]
        simp
      rw [hev]
      exact onKeyUp_motion key s
    · have hev : OnKeyEvent key pressed s1 s2 s = s := by
        rw [OnKeyEvent, if_neg (by simp [hplay]), if_neg (by simp [hrel])]
      rw [hev]
      exact ⟨rfl, rfl, rfl⟩

/-- An Idle launch state with a centered, motionless ball. -/
noncomputable def idleState : LaunchState :=
  ⟨false, 0, ⟨0, 0⟩, [], []⟩

/-- Concrete run of `onKeyEvent_launch`: pressing space (key 32) while Idle
with signs `(1, -1)` launches the ball diagonally. -/
theorem onKeyEvent_launch_witness :
    ((1 : ℝ) = 1 ∨ (1 : ℝ) = -1) ∧ ((-1 : ℝ) = 1 ∨ (-1 : ℝ) = -1) ∧
    idleState.playing = false ∧
    (OnKeyEvent 32 true 1 (-1) idleState).playing = true ∧
    (OnKeyEvent 32 true 1 (-1) idleState).ballMoveSpeed = skDefaultMoveSpeed ∧
    (OnKeyEvent 32 true 1 (-1) idleState).ballMoveDirection =
      ⟨1 / Real.sqrt 2, -1 / Real.sqrt 2⟩ := by
  have h := (onKeyEvent_launch 32 true 1 (-1) idleState (Or.inl rfl)
    (Or.inr rfl)).1 rfl rfl rfl
  exact ⟨Or.inl rfl, Or.inr rfl, rfl, h.1, h.2.1, h.2.2.1⟩

/-! ## Frame loop (src/lepong.cpp:582-600)

The loop `while (sRunning) { sRunning = Window::PollEvents(); OnUpdate;
OnRender; }` consumes one poll result per iteration; the iteration's body
always completes, and the loop continues only if the poll returned true.
The poll results are supplied as a list. -/

/-- One observable action of a frame-loop iteration. -/
inductive RunEvent where
  | poll (r : Bool)
  | update
  | render
deriving DecidableEq, Repr

/-- Embedding of the `Run` while loop (src/lepong.cpp:589-597), entered with
`sRunning = true`: poll (storing the result into `sRunning`), update,
render, then re-check the flag. -/
def RunLoop : List Bool → List RunEvent
  | [] => []
  | p :: ps =>
    RunEvent.poll p :: RunEvent.update :: RunEvent.render ::
      (if p then RunLoop ps else [])

/-- The number of polls a frame-loop trace performed. -/
def pollCount (t : List RunEvent) : Nat :=
  (t.filter fun e =>
    match e with
    | RunEvent.poll _ => true
    | _ => false).length

/-- C8: when the poll signals shutdown (returns false) after `n` successful
iterations, the current iteration's Update and Render still execute exactly
once more, and the loop terminates without polling again: the trace is the
`n` full iterations followed by exactly `poll false, update, render`,
independently of any further poll results, with `n + 1` polls, updates and
renders in total. -/
theorem runLoop_shutdown (n : Nat) (rest : List Bool) :
    RunLoop (List.replicate n true ++ false :: rest) =
      (List.replicate n
        [RunEvent.poll true, RunEvent.update, RunEvent.render]).flatten ++
        [RunEvent.poll false, RunEvent.update, RunEvent.render] ∧
    (RunLoop (List.replicate n true ++ false :: rest)).count
      RunEvent.update = n + 1 ∧
    (RunLoop (List.replicate n true ++ false :: rest)).count
      RunEvent.render = n + 1 ∧
    pollCount (RunLoop (List.replicate n true ++ false :: rest)) = n + 1 := by
  induction n with
  | zero => simp [RunLoop, pollCount]
  | succ n ih =>
    rw [List.replicate_succ, List.cons_append, RunLoop]
    refine ⟨?_, ?_, ?_, ?_⟩
    · rw [ih.1]
      simp [List.replicate_succ]
    · rw [if_pos rfl, List.count_cons, List.count_cons, List.count_cons, ih.2.1]
      simp
    · rw [if_pos rfl, List.count_cons, List.count_cons, List.count_cons,
        ih.2.2.1]
      simp
    · rw [if_pos rfl]
      show pollCount (RunEvent.poll true :: RunEvent.update :: RunEvent.render ::
        RunLoop (List.replicate n true ++ false :: rest)) = n + 1 + 1
      rw [pollCount, List.filter_cons, List.filter_cons, List.filter_cons]
      simpa [pollCount] using ih.2.2.2

/-- Concrete run of `runLoop_shutdown`: one successful iteration, then the
shutdown poll; the body still runs once more and no further poll happens. -/
theorem runLoop_shutdown_witness :
    RunLoop (List.replicate 1 true ++ false :: [true, true]) =
      (List.replicate 1
        [RunEvent.poll true, RunEvent.update, RunEvent.render]).flatten ++
        [RunEvent.poll false, RunEvent.update, RunEvent.render] :=
  (runLoop_shutdown 1 [true, true]).1

/-! ## Shader and program creation (src/lepong/Graphics/Graphics.cpp)

The GL collaborator is abstracted by the handle it returns and the
compile/link status it reports; the trace records the GL calls made. -/

/-- One observable GL call. -/
inductive GLEvent where
  | createShader
  | shaderSource
  | compileShader
  | logInfo (h : Nat)
  | deleteShader (h : Nat)
  | createProgram
  | attachShader (h : Nat)
  | linkProgram
  | deleteProgram (h : Nat)
deriving DecidableEq, Repr

/-- Embedding of `CreateShaderFromSource`
(src/lepong/Graphics/Graphics.cpp:47-68).  `sourceValid` and `typeValid`
stand for the two assertion guards (non-null source, vertex/fragment type);
`handle` is what `gl::CreateShader` returns and `compileOk` the compile
status reported by `gl::GetShaderiv`.  On compile failure the info log is
logged and the shader deleted before 0 is returned. -/
def CreateShaderFromSource (sourceValid typeValid : Bool) (handle : Nat)
    (compileOk : Bool) : Nat × List GLEvent :=
  if ¬sourceValid then (0, [])
  else if ¬typeValid then (0, [])
  else
    let ev := [GLEvent.createShader, GLEvent.shaderSource,
      GLEvent.compileShader]
    if ¬compileOk then
      (0, ev ++ [GLEvent.logInfo handle, GLEvent.deleteShader handle])
    else
      (handle, ev)

/-- Embedding of `CreateProgramFromShaders`
(src/lepong/Graphics/Graphics.cpp:129-151): zero shader handles are rejected
by the assertion guard; otherwise create, attach both shaders, link; on link
failure the info log is logged and the program deleted before 0 is
returned. -/
def CreateProgramFromShaders (vert frag : Nat) (handle : Nat)
    (linkOk : Bool) : Nat × List GLEvent :=
  if vert = 0 ∨ frag = 0 then (0, [])
  else
    let ev := [GLEvent.createProgram, GLEvent.attachShader vert,
      GLEvent.attachShader frag, GLEvent.linkProgram]
    if ¬linkOk then
      (0, ev ++ [GLEvent.logInfo handle, GLEvent.deleteProgram handle])
    else
      (handle, ev)

/-- C9: with valid inputs and a well-behaved backend (non-zero fresh
handles), shader creation returns a non-zero handle exactly when compilation
succeeds and zero when it fails, and program creation returns a non-zero
handle exactly when linking succeeds and zero when it fails; in each failure
case the diagnostics are logged and the partial object deleted before zero
is returned. -/
theorem graphics_zero_sentinel (shaderHandle programHandle vert frag : Nat)
    (compileOk linkOk : Bool) (hsh : shaderHandle ≠ 0)
    (hph : programHandle ≠ 0) (hv : vert ≠ 0) (hf : frag ≠ 0) :
    ((CreateShaderFromSource true true shaderHandle compileOk).1 ≠ 0 ↔
      compileOk = true) ∧
    (compileOk = false →
      CreateShaderFromSource true true shaderHandle compileOk =
        (0, [GLEvent.createShader, GLEvent.shaderSource,
          GLEvent.compileShader, GLEvent.logInfo shaderHandle,
          GLEvent.deleteShader shaderHandle])) ∧
    (compileOk = true →
      CreateShaderFromSource true true shaderHandle compileOk =
        (shaderHandle, [GLEvent.createShader, GLEvent.shaderSource,
          GLEvent.compileShader])) ∧
    ((CreateProgramFromShaders vert frag programHandle linkOk).1 ≠ 0 ↔
      linkOk = true) ∧
    (linkOk = false →
      CreateProgramFromShaders vert frag programHandle linkOk =
        (0, [GLEvent.createProgram, GLEvent.attachShader vert,
          GLEvent.attachShader frag, GLEvent.linkProgram,
          GLEvent.logInfo programHandle,
          GLEvent.deleteProgram programHandle])) ∧
    (linkOk = true →
      CreateProgramFromShaders vert frag programHandle linkOk =
        (programHandle, [GLEvent.createProgram, GLEvent.attachShader vert,
          GLEvent.attachShader frag, GLEvent.linkProgram])) := by
  cases compileOk <;> cases linkOk <;>
    simp [CreateShaderFromSource, CreateProgramFromShaders, hsh, hph, hv, hf]

/-- Concrete run of `graphics_zero_sentinel`: a failing compile yields 0
after logging and deleting shader 7; a successful link yields program 9. -/
theorem graphics_zero_sentinel_witness :
    (7 : Nat) ≠ 0 ∧ (9 : Nat) ≠ 0 ∧ (3 : Nat) ≠ 0 ∧ (4 : Nat) ≠ 0 ∧
    CreateShaderFromSource true true 7 false =
      (0, [GLEvent.createShader, GLEvent.shaderSource, GLEvent.compileShader,
        GLEvent.logInfo 7, GLEvent.deleteShader 7]) ∧
    CreateProgramFromShaders 3 4 9 true =
      (9, [GLEvent.createProgram, GLEvent.attachShader 3,
        GLEvent.attachShader 4, GLEvent.linkProgram]) := by
  have h := graphics_zero_sentinel 7 9 3 4 false true (by decide) (by decide)
    (by decide) (by decide)
  exact ⟨by decide, by decide, by decide, by decide, h.2.1 rfl, h.2.2.2.2.2 rfl⟩

/-! ## Top-level lifecycle protocol (src/lepong.cpp: Init / Run / Cleanup)

The globals `sInitialized` and `sRunning` become an explicit state; the
body of each entry point is abstracted to the events it can produce:
running the lifecycle items' inits (`TryInitItems(kGameLifetimes)`, with its
boolean outcome), running their cleanups (`CleanupItems(kGameLifetimes)`),
and executing frames.  `LEPONG_CHECK_OR_RETURN` / `..._VAL` (Check.h is not
under src/) are modelled from the spec as guard-and-return, matching spec
§7's boolean-failure protocol. -/

/-- The lifecycle globals `sInitialized` (src/lepong.cpp:22) and `sRunning`
(src/lepong.cpp:555). -/
structure AppState where
  initialized : Bool
  running : Bool
deriving DecidableEq, Repr

/-- An observable effect of a top-level entry point: the game lifetimes'
inits ran (with the given overall outcome), their cleanups ran, or one
frame executed. -/
inductive AppEvent where
  | itemsInit (ok : Bool)
  | itemsCleanup
  | frame
deriving DecidableEq, Repr

/-- The frames the `Run` while loop executes for the given poll results
(one frame per iteration, continuing only while the poll returns true). -/
def framesOf : List Bool → List AppEvent
  | [] => []
  | p :: ps => AppEvent.frame :: (if p then framesOf ps else [])

/-- Embedding of `Init` (src/lepong.cpp:142-148): if already initialized,
return false and do nothing; otherwise run the lifetimes' inits, store the
outcome in `sInitialized` and return it.  `outcome` abstracts the result of
`TryInitItems(kGameLifetimes)` (itself verified separately above). -/
def InitOp (outcome : Bool) (s : AppState) : AppState × Bool × List AppEvent :=
  if s.initialized then (s, false, [])
  else ({ s with initialized := outcome }, outcome, [AppEvent.itemsInit outcome])

/-- Embedding of `Run` (src/lepong.cpp:582-600): guarded by
`sInitialized && !sRunning`; the loop leaves `sRunning` false again when it
exits, so the net state is unchanged; the body only executes frames. -/
def RunOp (polls : List Bool) (s : AppState) : AppState × List AppEvent :=
  if s.initialized && !s.running then (s, framesOf polls)
  else (s, [])

/-- Embedding of `Cleanup` (src/lepong.cpp:733-739): guarded by
`sInitialized && !sRunning`; runs the lifetimes' cleanups and clears
`sInitialized`. -/
def CleanupOp (s : AppState) : AppState × List AppEvent :=
  if s.initialized && !s.running then
    ({ s with initialized := false }, [AppEvent.itemsCleanup])
  else (s, [])

/-- A call to one of the three top-level entry points, with its
environment (init outcome, poll results). -/
inductive AppOp where
  | init (outcome : Bool)
  | run (polls : List Bool)
  | cleanup

/-- Dispatch one entry-point call. -/
def step : AppOp → AppState → AppState × List AppEvent
  | AppOp.init outcome, s =>
    ((InitOp outcome s).1, (InitOp outcome s).2.2)
  | AppOp.run polls, s => RunOp polls s
  | AppOp.cleanup, s => CleanupOp s

/-- Run a sequence of entry-point calls, concatenating their effects. -/
def runOps : List AppOp → AppState → AppState × List AppEvent
  | [], s => (s, [])
  | op :: ops, s =>
    ((runOps ops (step op s).1).1,
     (step op s).2 ++ (runOps ops (step op s).1).2)

/-- The successful-init (`true`) and cleanup (`false`) milestones of an
effect trace, in order; failed inits roll themselves back inside
`TryInitItems` and leave nothing initialized, so they are not milestones. -/
def lifecycleTags (t : List AppEvent) : List Bool :=
  t.filterMap fun e =>
    match e with
    | AppEvent.itemsInit true => some true
    | AppEvent.itemsCleanup => some false
    | _ => none

lemma lifecycleTags_append (a b : List AppEvent) :
    lifecycleTags (a ++ b) = lifecycleTags a ++ lifecycleTags b := by
  simp [lifecycleTags]

lemma lifecycleTags_framesOf (polls : List Bool) :
    lifecycleTags (framesOf polls) = [] := by
  induction polls with
  | nil => rfl
  | cons p ps ih =>
    rw [framesOf]
    by_cases hp : p = true
    · simp only [lifecycleTags, List.filterMap_cons] at ih ⊢
      rw [if_pos hp]
      exact ih
    · simp at hp
      simp [lifecycleTags, hp]

lemma frames_only (polls : List Bool) :
    ∀ e ∈ framesOf polls, e = AppEvent.frame := by
  induction polls with
  | nil => intro e he; simp [framesOf] at he
  | cons p ps ih =>
    intro e he
    rw [framesOf] at he
    rcases List.mem_cons.mp he with h | h
    · exact h
    · by_cases hp : p = true
      · rw [if_pos hp] at h
        exact ih e h
      · simp at hp
        rw [hp] at h
        simp at h

lemma runOps_protocol (ops : List AppOp) : ∀ s : AppState,
    List.Chain' (fun a b => a ≠ b) (lifecycleTags (runOps ops s).2) ∧
    (∀ h, (lifecycleTags (runOps ops s).2).head? = some h →
      h = !s.initialized) := by
  induction ops with
  | nil => intro s; simp [runOps, lifecycleTags]
  | cons op ops ih =>
    intro s
    rw [runOps]
    cases op with
    | init outcome =>
      by_cases hi : s.initialized
      · have hstep : step (AppOp.init outcome) s = (s, []) := by
          simp [step, InitOp, hi]
        rw [hstep]
        simpa using ih s
      · have hsf : s.initialized = false := by simpa using hi
        have hstep : step (AppOp.init outcome) s =
            ({ s with initialized := outcome },
             [AppEvent.itemsInit outcome]) := by
          simp [step, InitOp, hi]
        rw [hstep]
        have ih2 := ih { s with initialized := outcome }
        cases outcome with
        | false =>
          have htag : lifecycleTags ([AppEvent.itemsInit false] ++
              (runOps ops { s with initialized := false }).2) =
              lifecycleTags (runOps ops { s with initialized := false }).2 := by
            rw [lifecycleTags_append]
            simp [lifecycleTags]
          rw [htag]
          refine ⟨ih2.1, fun h hh => ?_⟩
          have h2 := ih2.2 h hh
          rw [hsf]
          simpa using h2
        | true =>
          have htag : lifecycleTags ([AppEvent.itemsInit true] ++
              (runOps ops { s with initialized := true }).2) =
              true :: lifecycleTags
                (runOps ops { s with initialized := true }).2 := by
            rw [lifecycleTags_append]
            simp [lifecycleTags]
          rw [htag]
          constructor
          · rw [List.chain'_cons']
            refine ⟨fun b hb => ?_, ih2.1⟩
            have h2 := ih2.2 b hb
            simp only [Bool.not_true] at h2
            simp [h2]
          · intro h hh
            simp only [List.head?_cons, Option.some.injEq] at hh
            rw [hsf, ← hh]
            rfl
    | run polls =>
      have hstep1 : (step (AppOp.run polls) s).1 = s := by
        simp only [step, RunOp]
        split <;> rfl
      have hstep2 : lifecycleTags (step (AppOp.run polls) s).2 = [] := by
        simp only [step, RunOp]
        split
        · exact lifecycleTags_framesOf polls
        · rfl
      rw [hstep1, lifecycleTags_append, hstep2, List.nil_append]
      exact ih s
    | cleanup =>
      by_cases hg : s.initialized && !s.running
      · have hinit : s.initialized = true := (Bool.and_eq_true_iff.mp hg).1
        have hstep : step AppOp.cleanup s =
            ({ s with initialized := false }, [AppEvent.itemsCleanup]) := by
          simp [step, CleanupOp, hg]
        rw [hstep]
        have ih2 := ih { s with initialized := false }
        have htag : lifecycleTags ([AppEvent.itemsCleanup] ++
            (runOps ops { s with initialized := false }).2) =
            false :: lifecycleTags
              (runOps ops { s with initialized := false }).2 := by
          rw [lifecycleTags_append]
          simp [lifecycleTags]
        rw [htag]
        constructor
        · rw [List.chain'_cons']
          refine ⟨fun b hb => ?_, ih2.1⟩
          have h2 := ih2.2 b hb
          simp only [Bool.not_false] at h2
          simp [h2]
        · intro h hh
          simp only [List.head?_cons, Option.some.injEq] at hh
          rw [hinit, ← hh]
          rfl
      · have hstep : step AppOp.cleanup s = (s, []) := by
          simp only [step, CleanupOp]
          rw [if_neg hg]
        rw [hstep]
        simpa using ih s

/-- C10: the entry points preserve the initialized/running protocol: `Init`
while initialized returns false and does nothing; `Run` does nothing unless
initialized and not running; `Cleanup` does nothing unless initialized and
not running; `Run` only executes frames (never cleanups); and along any
call sequence the successful-init/cleanup milestones strictly alternate, so
the lifecycle items are never initialized twice in a row nor cleaned up
twice in a row, and no cleanup happens inside a run. -/
theorem lifecycle_protocol :
    (∀ (outcome : Bool) (s : AppState), s.initialized = true →
      InitOp outcome s = (s, false, [])) ∧
    (∀ (polls : List Bool) (s : AppState),
      ¬(s.initialized = true ∧ s.running = false) → RunOp polls s = (s, [])) ∧
    (∀ s : AppState,
      ¬(s.initialized = true ∧ s.running = false) → CleanupOp s = (s, [])) ∧
    (∀ (polls : List Bool) (s : AppState),
      ∀ e ∈ (RunOp polls s).2, e = AppEvent.frame) ∧
    (∀ (ops : List AppOp) (s : AppState),
      List.Chain' (fun a b => a ≠ b) (lifecycleTags (runOps ops s).2)) := by
  refine ⟨?_, ?_, ?_, ?_, ?_⟩
  · intro outcome s hi
    simp [InitOp, hi]
  · intro polls s hg
    have hb : ¬(s.initialized && !s.running) = true := by
      simpa [Bool.and_eq_true, Bool.not_eq_true'] using hg
    simp [RunOp, hb]
  · intro s hg
    have hb : ¬(s.initialized && !s.running) = true := by
      simpa [Bool.and_eq_true, Bool.not_eq_true'] using hg
    simp [CleanupOp, hb]
  · intro polls s e he
    rw [RunOp] at he
    by_cases hb : (s.initialized && !s.running) = true
    · rw [if_pos hb] at he
      exact frames_only polls e he
    · rw [if_neg hb] at he
      simp at he
  · intro ops s
    exact (runOps_protocol ops s).1

/-- Concrete runs of `lifecycle_protocol`: a second `Init` is refused, `Run`
without init does nothing, `Cleanup` while running does nothing. -/
theorem lifecycle_protocol_witness :
    InitOp true ⟨true, false⟩ = (⟨true, false⟩, false, []) ∧
    RunOp [false] ⟨false, false⟩ = (⟨false, false⟩, []) ∧
    CleanupOp ⟨true, true⟩ = (⟨true, true⟩, []) :=
  ⟨lifecycle_protocol.1 true ⟨true, false⟩ rfl,
   lifecycle_protocol.2.1 [false] ⟨false, false⟩ (by simp),
   lifecycle_protocol.2.2.1 ⟨true, true⟩ (by simp)⟩

end Lepong
